import Mathlib

/-!
Shallow embedding of the InvestmentPipeline component
(src/src/pages/InvestmentPipeline.tsx) of the onevdr repository.

The component is view glue over a remote document store: it mirrors a live
subscription into a local list of investor records, issues point writes back,
and derives view state (filter, sort, expansion, confetti) from that list.
Each definition below embeds one handler or derived value of the component;
stateful handlers are modelled as pure functions from their inputs (current
state, the outcome of the awaited write) to the state and effects they produce.
Thrown errors are modelled by an `Except ε Unit` write outcome, polymorphic in
the error type `ε`, since every catch block ignores the caught value except for
logging.
-/

namespace OneVDR

/-- Lifecycle status of an investor record: the string union
`'active' | 'paused' | 'closed'` of the TS code. -/
inductive Status where
  | active
  | paused
  | closed
deriving DecidableEq, Repr

/-- Importance level: `'low' | 'medium' | 'high'`. -/
inductive Importance where
  | low
  | medium
  | high
deriving DecidableEq, Repr

/-- A comment on an investor: client-generated id (`Date.now().toString()`),
text, and ISO date string. -/
structure Comment where
  id : String
  text : String
  date : String
deriving DecidableEq, Repr

/-- An investor record as held in local state. `currentStep` is the numeric
pipeline index; `investmentAmount` and `fundSize` are `Option` because the
code guards them (`investor.investmentAmount || 0`, optional chaining). -/
structure Investor where
  id : String
  name : String
  company : String
  email : String
  phone : String
  website : String
  currentStep : Int
  status : Status
  investmentAmount : Option Int
  lastContact : String
  notes : String
  comments : List Comment
  industry : String
  fundSize : Option Int
  investmentStage : String
  location : String
  importance : Importance
deriving DecidableEq, Repr

/-- The fields of an investor record without its document id: the type of
`updateData` in `const \x7b id, ...updateData \x7d = updatedInvestor` and of the
`newInvestor` form state (`Omit<Investor, 'id'>`). -/
structure InvestorData where
  name : String
  company : String
  email : String
  phone : String
  website : String
  currentStep : Int
  status : Status
  investmentAmount : Option Int
  lastContact : String
  notes : String
  comments : List Comment
  industry : String
  fundSize : Option Int
  investmentStage : String
  location : String
  importance : Importance
deriving DecidableEq, Repr

/-- The `\x7b id, ...updateData \x7d` destructuring in `handleEditInvestor`: every
field of the record except `id`. -/
def investorData (inv : Investor) : InvestorData :=
  { name := inv.name
    company := inv.company
    email := inv.email
    phone := inv.phone
    website := inv.website
    currentStep := inv.currentStep
    status := inv.status
    investmentAmount := inv.investmentAmount
    lastContact := inv.lastContact
    notes := inv.notes
    comments := inv.comments
    industry := inv.industry
    fundSize := inv.fundSize
    investmentStage := inv.investmentStage
    location := inv.location
    importance := inv.importance }

/-- Rebuild a full record from an id and the id-less field set; used to state
that `investorData` drops nothing but the id. -/
def reassemble (id : String) (d : InvestorData) : Investor :=
  { id := id
    name := d.name
    company := d.company
    email := d.email
    phone := d.phone
    website := d.website
    currentStep := d.currentStep
    status := d.status
    investmentAmount := d.investmentAmount
    lastContact := d.lastContact
    notes := d.notes
    comments := d.comments
    industry := d.industry
    fundSize := d.fundSize
    investmentStage := d.investmentStage
    location := d.location
    importance := d.importance }

/-- The fixed 7-stage pipeline (`steps` array, lines 95-103). -/
def steps : List String :=
  ["Initial Contact", "Pitch Deck Review", "First Meeting", "Due Diligence",
   "Term Sheet", "Negotiation", "Closing"]

/-- Generic message set by the catch block of `handleAddInvestor` (line 214). -/
def addInvestorFailureMessage : String := "Failed to add investor. Please try again."

/-- Generic message set by the catch block of `handleUpdateInvestorStep` (line 235). -/
def updateStepFailureMessage : String := "Failed to update investor step. Please try again."

/-- Generic message set by the catch block of `handleUpdateInvestorStatus` (line 250). -/
def updateStatusFailureMessage : String := "Failed to update investor status. Please try again."

/-- Generic message set by the catch block of `handleDeleteInvestor` (line 265). -/
def deleteInvestorFailureMessage : String := "Failed to delete investor. Please try again."

/-- Generic message set by the catch block of `handleEditInvestor` (line 305). -/
def editInvestorFailureMessage : String := "Failed to update investor. Please try again."

/-- Generic message set by the catch block of `handleAddComment` (line 329). -/
def addCommentFailureMessage : String := "Failed to add comment. Please try again."

/-- Generic message set by the catch block of `handleUpdateComment` (line 350). -/
def updateCommentFailureMessage : String := "Failed to update comment. Please try again."

/-- Generic message set by the catch block of `handleDeleteComment` (line 366). -/
def deleteCommentFailureMessage : String := "Failed to delete comment. Please try again."

/-- All eight write-failure messages, one per write operation of the component. -/
def failureMessages : List String :=
  [addInvestorFailureMessage, updateStepFailureMessage, updateStatusFailureMessage,
   deleteInvestorFailureMessage, editInvestorFailureMessage, addCommentFailureMessage,
   updateCommentFailureMessage, deleteCommentFailureMessage]

/-- The blank form the add handler resets to on success (lines 194-211); equal to
the initial `newInvestor` state (lines 108-125). -/
def initialNewInvestor : InvestorData :=
  { name := ""
    company := ""
    email := ""
    phone := ""
    website := ""
    currentStep := 0
    status := .active
    investmentAmount := some 0
    lastContact := ""
    notes := ""
    comments := []
    industry := ""
    fundSize := some 0
    investmentStage := ""
    location := ""
    importance := .medium }

/-- State and effects produced by one call of `handleAddInvestor`. -/
structure AddInvestorResult where
  write : Option InvestorData
  newInvestorForm : InvestorData
  error : Option String
deriving DecidableEq, Repr

/-- `handleAddInvestor` (lines 188-219): attempts `addDoc` with the form data;
on success resets the form, on a thrown error keeps the form and sets the fixed
generic message. -/
def handleAddInvestor (ε : Type) (form : InvestorData) (outcome : Except ε Unit) :
    AddInvestorResult :=
  match outcome with
  | .ok _ => { write := some form, newInvestorForm := initialNewInvestor, error := none }
  | .error _ => { write := none, newInvestorForm := form, error := some addInvestorFailureMessage }

/-- State and effects produced by one call of `handleUpdateInvestorStep`. -/
structure UpdateStepResult where
  write : Option (String × Int)
  showConfetti : Bool
  confettiTimeoutMs : Option Nat
  error : Option String
deriving DecidableEq, Repr

/-- `handleUpdateInvestorStep` (lines 221-238): writes `\x7b currentStep: newStep \x7d`;
after a successful write, if `newStep === steps.length - 1` it shows confetti and
schedules `setShowConfetti(false)` after 5000 ms; a thrown error sets the fixed
generic message. -/
def handleUpdateInvestorStep (ε : Type) (investorId : String) (newStep : Int)
    (outcome : Except ε Unit) : UpdateStepResult :=
  match outcome with
  | .ok _ =>
    if newStep = (steps.length : Int) - 1 then
      { write := some (investorId, newStep), showConfetti := true,
        confettiTimeoutMs := some 5000, error := none }
    else
      { write := some (investorId, newStep), showConfetti := false,
        confettiTimeoutMs := none, error := none }
  | .error _ =>
    { write := none, showConfetti := false, confettiTimeoutMs := none,
      error := some updateStepFailureMessage }

/-- State and effects produced by one call of `handleUpdateInvestorStatus`. -/
structure UpdateStatusResult where
  write : Option (String × Status)
  error : Option String
deriving DecidableEq, Repr

/-- `handleUpdateInvestorStatus` (lines 240-253): writes `\x7b status: newStatus \x7d`;
a thrown error sets the fixed generic message. -/
def handleUpdateInvestorStatus (ε : Type) (investorId : String) (newStatus : Status)
    (outcome : Except ε Unit) : UpdateStatusResult :=
  match outcome with
  | .ok _ => { write := some (investorId, newStatus), error := none }
  | .error _ => { write := none, error := some updateStatusFailureMessage }

/-- State and effects produced by one call of `handleDeleteInvestor`. -/
structure DeleteInvestorResult where
  deleted : Bool
  investors : List Investor
  error : Option String
deriving DecidableEq, Repr

/-- `handleDeleteInvestor` (lines 255-268): deletes the document, then
optimistically filters the record out of local state; a thrown error leaves the
list unchanged and sets the fixed generic message. -/
def handleDeleteInvestor (ε : Type) (investorId : String) (investors : List Investor)
    (outcome : Except ε Unit) : DeleteInvestorResult :=
  match outcome with
  | .ok _ =>
    { deleted := true,
      investors := investors.filter (fun inv => inv.id != investorId),
      error := none }
  | .error _ =>
    { deleted := false, investors := investors, error := some deleteInvestorFailureMessage }

/-- Backend and AI-service calls issued by `handleEditInvestor`, in program
order. -/
inductive EditEvent where
  | commitUpdate (investorId : String) (data : InvestorData)
  | aiPortfolio (inv : Investor)
  | aiLikelihood (inv : Investor)
  | aiNextActions (inv : Investor) (step : Int)
deriving DecidableEq, Repr

/-- Recognise the single backend commit among the edit-flow events. -/
def isCommitEvent : EditEvent → Bool
  | .commitUpdate _ _ => true
  | _ => false

/-- State and effects produced by one call of `handleEditInvestor`. -/
structure EditInvestorResult where
  events : List EditEvent
  investors : List Investor
  editingInvestor : Option Investor
  error : Option String
deriving Repr

/-- `handleEditInvestor` (lines 270-308): commits the whole draft minus its id in
one `updateDoc`, mirrors it into local state, closes the dialog, then refreshes
the three AI-derived values from the freshly saved record. The parameter is the
outcome of the `updateDoc` await (the subsequent AI calls are modelled as
succeeding); on a thrown error nothing is committed and the fixed generic
message is set. -/
def handleEditInvestor (ε : Type) (updatedInvestor : Investor)
    (investors : List Investor) (outcome : Except ε Unit) : EditInvestorResult :=
  match outcome with
  | .ok _ =>
    { events :=
        [ .commitUpdate updatedInvestor.id (investorData updatedInvestor),
          .aiPortfolio updatedInvestor,
          .aiLikelihood updatedInvestor,
          .aiNextActions updatedInvestor updatedInvestor.currentStep ],
      investors := investors.map
        (fun inv => if inv.id == updatedInvestor.id then updatedInvestor else inv),
      editingInvestor := none,
      error := none }
  | .error _ =>
    { events := [],
      investors := investors,
      editingInvestor := some updatedInvestor,
      error := some editInvestorFailureMessage }

/-- Firestore `arrayUnion` on a comment array: appends the element unless an
equal element is already present. -/
def arrayUnion (xs : List Comment) (x : Comment) : List Comment :=
  if x ∈ xs then xs else xs ++ [x]

/-- Result of a write that replaces an investor's stored comment array. -/
structure CommentsWriteResult where
  comments : Option (List Comment)
  error : Option String
deriving DecidableEq, Repr

/-- `handleAddComment` (lines 310-332): builds a comment from the clock
(`Date.now().toString()` id, ISO date) and appends it to the stored array via
`arrayUnion`; local state is left to the snapshot listener. A thrown error sets
the fixed generic message. -/
def handleAddComment (ε : Type) (nowId : String) (nowIso : String)
    (current : List Comment) (commentText : String) (outcome : Except ε Unit) :
    CommentsWriteResult :=
  match outcome with
  | .ok _ =>
    { comments := some (arrayUnion current { id := nowId, text := commentText, date := nowIso }),
      error := none }
  | .error _ => { comments := none, error := some addCommentFailureMessage }

/-- `handleUpdateComment` (lines 334-353): reads the current comment array and
rewrites it with the matching comment's text replaced; a thrown error sets the
fixed generic message. -/
def handleUpdateComment (ε : Type) (current : List Comment) (commentId : String)
    (newText : String) (outcome : Except ε Unit) : CommentsWriteResult :=
  match outcome with
  | .ok _ =>
    { comments := some (current.map
        (fun c => if c.id == commentId then { c with text := newText } else c)),
      error := none }
  | .error _ => { comments := none, error := some updateCommentFailureMessage }

/-- `handleDeleteComment` (lines 355-370): reads the current comment array and
rewrites it with the matching comment removed; a thrown error sets the fixed
generic message. -/
def handleDeleteComment (ε : Type) (current : List Comment) (commentId : String)
    (outcome : Except ε Unit) : CommentsWriteResult :=
  match outcome with
  | .ok _ =>
    { comments := some (current.filter (fun c => c.id != commentId)), error := none }
  | .error _ => { comments := none, error := some deleteCommentFailureMessage }

/-- `toggleCardExpansion` (lines 150-155). The `expandedCards` object is a map
from record id to a boolean; an absent key reads as `undefined`, which is falsy
(`!prev[id]` yields `true`, and display uses `expandedCards[id] || false`), so
the map is embedded as a total function with default `false`. -/
def toggleCardExpansion (investorId : String) (prev : String → Bool) : String → Bool :=
  fun k => if k == investorId then !(prev investorId) else prev k

/-- An untyped field value as it may arrive from the remote document store. -/
inductive JSValue where
  | num (n : Int)
  | str (s : String)
  | boolean (b : Bool)
  | null
  | undef
deriving DecidableEq, Repr

/-- The guard `typeof data.currentStep === 'number'` of the snapshot handler. -/
def isNumber : JSValue → Bool
  | .num _ => true
  | _ => false

/-- A raw document delivered by the subscription: its id and its (untyped)
`currentStep` field. -/
structure RawInvestorDoc where
  docId : String
  currentStep : JSValue
deriving DecidableEq, Repr

/-- A record as pushed into local state by the snapshot handler, keeping the
`currentStep` field at the untyped level so its shape can be reasoned about. -/
structure MirroredInvestor where
  id : String
  currentStep : JSValue
deriving DecidableEq, Repr

/-- The `onSnapshot` handler (lines 161-173): every delivered document is mapped
to a local record whose `currentStep` is the stored value when it is of number
type and `0` otherwise. -/
def mirrorSnapshot (docs : List RawInvestorDoc) : List MirroredInvestor :=
  docs.map fun d =>
    { id := d.docId,
      currentStep := if isNumber d.currentStep then d.currentStep else .num 0 }

/-- The filter selector: `'all' | 'active' | 'paused' | 'closed'`. -/
inductive FilterStatus where
  | all
  | active
  | paused
  | closed
deriving DecidableEq, Repr

/-- `filteredInvestors` (lines 372-374): keep every record when the selector is
`'all'`, otherwise exactly those whose status equals the selector. -/
def filteredInvestors (filterStatus : FilterStatus) (investors : List Investor) :
    List Investor :=
  investors.filter fun inv =>
    match filterStatus with
    | .all => true
    | .active => inv.status == .active
    | .paused => inv.status == .paused
    | .closed => inv.status == .closed

/-- The sort selector: `'name' | 'company' | 'investmentAmount'`. -/
inductive SortKey where
  | name
  | company
  | investmentAmount
deriving DecidableEq, Repr

/-- The `investor.investmentAmount || 0` guard used by the amount comparator:
an absent (or zero) amount compares as `0`. -/
def amountOrZero (inv : Investor) : Int :=
  match inv.investmentAmount with
  | some n => n
  | none => 0

/-- `sortedInvestors` (lines 376-382): the list sorted by the selected
comparator. The amount comparator `(b.investmentAmount || 0) - (a.investmentAmount || 0)`
places `a` before `b` exactly when it is nonpositive, i.e. when
`amountOrZero b ≤ amountOrZero a` (descending). `localeCompare` on names and
companies is modelled as code-point order; the engine sort is modelled by a
stable merge sort. -/
def sortedInvestors (sortBy : SortKey) (l : List Investor) : List Investor :=
  match sortBy with
  | .name => l.mergeSort fun a b => decide (a.name ≤ b.name)
  | .company => l.mergeSort fun a b => decide (a.company ≤ b.company)
  | .investmentAmount => l.mergeSort fun a b => decide (amountOrZero b ≤ amountOrZero a)

/-- Local comment-form state of an `InvestorCard`. -/
structure CommentFormState where
  newComment : String
deriving DecidableEq, Repr

/-- JS `String.prototype.trim`: the string with leading and trailing whitespace
removed. -/
def jsTrim (s : String) : String :=
  String.mk (((s.data.dropWhile Char.isWhitespace).reverse.dropWhile
    Char.isWhitespace).reverse)

/-- `handleCommentSubmit` (lines 438-443): if the trimmed input is nonempty
(truthy), calls `handleAddComment` with the trimmed text and clears the field;
otherwise does nothing. Returns the requested write (investor id and text), if
any, together with the form state after the call. -/
def handleCommentSubmit (investorId : String) (st : CommentFormState) :
    Option (String × String) × CommentFormState :=
  if jsTrim st.newComment = "" then
    (none, st)
  else
    (some (investorId, jsTrim st.newComment), { newComment := "" })

/-- The stored comment array after a submit of the comment form: a requested
write is carried out by `handleAddComment`, no request leaves the array
untouched. -/
def submitComment (ε : Type) (investorId nowId nowIso : String)
    (st : CommentFormState) (current : List Comment) (outcome : Except ε Unit) :
    List Comment :=
  match (handleCommentSubmit investorId st).1 with
  | none => current
  | some (_, text) =>
    match (handleAddComment ε nowId nowIso current text outcome).comments with
    | some cs => cs
    | none => current

/-- The `disabled` condition of the Previous Step button (line 579):
`investor.currentStep === 0`. -/
def prevStepDisabled (currentStep : Int) : Bool := currentStep == 0

/-- The onClick of the Previous Step button (lines 571-578): when
`currentStep > 0`, requests a step write of `currentStep - 1`. -/
def prevStepClick (currentStep : Int) : Option Int :=
  if currentStep > 0 then some (currentStep - 1) else none

/-- The `disabled` condition of the Next Step button (line 593):
`investor.currentStep === steps.length - 1`. -/
def nextStepDisabled (currentStep : Int) : Bool :=
  currentStep == (steps.length : Int) - 1

/-- The onClick of the Next Step button (lines 585-592): when
`currentStep < steps.length - 1`, requests a step write of `currentStep + 1`. -/
def nextStepClick (currentStep : Int) : Option Int :=
  if currentStep < (steps.length : Int) - 1 then some (currentStep + 1) else none

/-- The status written by the Pause/Activate button (lines 599-604):
`investor.status === 'active' ? 'paused' : 'active'`. -/
def statusToggleTarget (status : Status) : Status :=
  if status == .active then .paused else .active

/-- C1 counterexample: the user-visible error state is NOT the same string for
every failed write operation. With the same failure outcome, a failed add of an
investor and a failed add of a comment set different messages. -/
theorem c1_not_one_shared_message :
    (handleAddInvestor Unit initialNewInvestor (Except.error ())).error ≠
      (handleAddComment Unit "0" "2024-01-01T00:00:00.000Z" [] "hello"
        (Except.error ())).error := by
  decide

/-- C1 (amended): every write-failure handler maps any thrown error to a fixed,
non-specific message that does not depend on the error or on the operation's
arguments, but the message is operation-specific: the eight messages are
pairwise distinct, so different operations' failures are distinguishable to the
user (though the underlying cause never is). -/
theorem c1_perOperationGenericMessage (ε : Type) (e : ε) (form : InvestorData)
    (investorId nowId nowIso commentId text : String) (newStep : Int)
    (newStatus : Status) (inv : Investor) (investors : List Investor)
    (cs : List Comment) :
    (handleAddInvestor ε form (Except.error e)).error = some addInvestorFailureMessage ∧
    (handleUpdateInvestorStep ε investorId newStep (Except.error e)).error =
      some updateStepFailureMessage ∧
    (handleUpdateInvestorStatus ε investorId newStatus (Except.error e)).error =
      some updateStatusFailureMessage ∧
    (handleDeleteInvestor ε investorId investors (Except.error e)).error =
      some deleteInvestorFailureMessage ∧
    (handleEditInvestor ε inv investors (Except.error e)).error =
      some editInvestorFailureMessage ∧
    (handleAddComment ε nowId nowIso cs text (Except.error e)).error =
      some addCommentFailureMessage ∧
    (handleUpdateComment ε cs commentId text (Except.error e)).error =
      some updateCommentFailureMessage ∧
    (handleDeleteComment ε cs commentId (Except.error e)).error =
      some deleteCommentFailureMessage ∧
    failureMessages.Pairwise (fun a b => a ≠ b) :=
  ⟨rfl, rfl, rfl, rfl, rfl, rfl, rfl, rfl, by decide⟩

/-- C4: filtering by a concrete status keeps exactly the records with that
status (membership characterisation for `'paused'`, `'active'`, `'closed'`),
and filtering by `'all'` returns the list unchanged. -/
theorem c4_filterByStatus (l : List Investor) (inv : Investor) :
    (inv ∈ filteredInvestors .paused l ↔ inv ∈ l ∧ inv.status = .paused) ∧
    (inv ∈ filteredInvestors .active l ↔ inv ∈ l ∧ inv.status = .active) ∧
    (inv ∈ filteredInvestors .closed l ↔ inv ∈ l ∧ inv.status = .closed) ∧
    filteredInvestors .all l = l := by
  refine ⟨?_, ?_, ?_, ?_⟩ <;>
    simp [filteredInvestors, List.mem_filter]

/-- C8: toggling expansion for a record id flips exactly that id's expanded
flag; every other id's flag is unchanged. -/
theorem c8_toggleFlipsOnlyOwnFlag (investorId : String) (prev : String → Bool) :
    toggleCardExpansion investorId prev investorId = !(prev investorId) ∧
    ∀ k : String, k ≠ investorId → toggleCardExpansion investorId prev k = prev k := by
  constructor
  · simp [toggleCardExpansion]
  · intro k hk
    simp [toggleCardExpansion, hk]

/-- Witness for C8 at a concrete map: toggling id "a" on the empty (all-false)
map leaves the unrelated key "b" at `false`. -/
theorem c8_toggleFlipsOnlyOwnFlag_witness :
    toggleCardExpansion "a" (fun _ => false) "b" = false :=
  (c8_toggleFlipsOnlyOwnFlag "a" (fun _ => false)).2 "b" (by decide)

/-- C10: the Pause/Activate button writes `'paused'` exactly when the current
status is `'active'`; in every other case, in particular for a `'closed'`
investor, it writes `'active'`. -/
theorem c10_statusToggle :
    statusToggleTarget .active = .paused ∧
    statusToggleTarget .paused = .active ∧
    statusToggleTarget .closed = .active := by
  decide

/-- C2: for a record within the stage bounds, the Previous control is disabled
exactly at step 0 and the Next control exactly at step 6; a click on either
writes a step that differs by exactly one and stays within `[0, 6]`. -/
theorem c2_stepTransitions (s : Int) (h0 : 0 ≤ s) (h6 : s ≤ 6) :
    (prevStepDisabled s = true ↔ s = 0) ∧
    (nextStepDisabled s = true ↔ s = 6) ∧
    (∀ w : Int, prevStepClick s = some w → w = s - 1 ∧ 0 ≤ w ∧ w ≤ 6) ∧
    (∀ w : Int, nextStepClick s = some w → w = s + 1 ∧ 0 ≤ w ∧ w ≤ 6) := by
  have hlen : (steps.length : Int) - 1 = 6 := by decide
  refine ⟨?_, ?_, ?_, ?_⟩
  · simp [prevStepDisabled]
  · simp [nextStepDisabled, hlen]
  · intro w hw
    simp only [prevStepClick] at hw
    split at hw
    · rename_i hpos
      cases hw
      omega
    · exact absurd hw (by simp)
  · intro w hw
    simp only [nextStepClick, hlen] at hw
    split at hw
    · rename_i hlt
      cases hw
      omega
    · exact absurd hw (by simp)

/-- Witness for C2 at step 3: clicking Previous writes 2, which is one less and
within bounds. -/
theorem c2_stepTransitions_witness :
    (2 : Int) = 3 - 1 ∧ (0 : Int) ≤ 2 ∧ (2 : Int) ≤ 6 :=
  (c2_stepTransitions 3 (by decide) (by decide)).2.2.1 2 (by decide)

/-- C3: sorting by investment amount is a permutation of the list ordered
descendingly by `investmentAmount || 0`, i.e. an absent amount compares as 0. -/
theorem c3_sortByAmountDescending (l : List Investor) :
    (sortedInvestors .investmentAmount l).Perm l ∧
    (sortedInvestors .investmentAmount l).Pairwise
      (fun a b => amountOrZero b ≤ amountOrZero a) := by
  constructor
  · exact List.mergeSort_perm l _
  · have h : (l.mergeSort fun a b => decide (amountOrZero b ≤ amountOrZero a)).Pairwise
        (fun a b => (decide (amountOrZero b ≤ amountOrZero a)) = true) := by
      apply List.sorted_mergeSort
      · intro a b c hab hbc
        simp only [decide_eq_true_eq] at hab hbc ⊢
        omega
      · intro a b
        simp only [Bool.or_eq_true, decide_eq_true_eq]
        omega
    have h2 := h.imp (fun hab => of_decide_eq_true hab)
    simpa [sortedInvestors] using h2

/-- C5: submitting the comment form with an input that trims to the empty
string requests no write (so the stored comment array is unchanged and the
field keeps its value); with non-whitespace content, the trimmed text is the
requested write and the field is cleared. -/
theorem c5_emptyCommentNoWrite (ε : Type) (investorId nowId nowIso : String)
    (st : CommentFormState) (current : List Comment) (outcome : Except ε Unit) :
    (jsTrim st.newComment = "" →
      (handleCommentSubmit investorId st).1 = none ∧
      submitComment ε investorId nowId nowIso st current outcome = current ∧
      (handleCommentSubmit investorId st).2 = st) ∧
    (jsTrim st.newComment ≠ "" →
      (handleCommentSubmit investorId st).1 = some (investorId, jsTrim st.newComment) ∧
      (handleCommentSubmit investorId st).2 = { newComment := "" }) := by
  constructor
  · intro h
    refine ⟨?_, ?_, ?_⟩ <;> simp [handleCommentSubmit, submitComment, h]
  · intro h
    constructor <;> simp [handleCommentSubmit, h]

/-- Witness for C5: a whitespace-only input writes nothing and leaves an
existing comment array unchanged; an input with content submits its trim. -/
theorem c5_emptyCommentNoWrite_witness :
    ((handleCommentSubmit "inv1" { newComment := "   " }).1 = none ∧
      submitComment Unit "inv1" "0" "2024-01-01T00:00:00.000Z"
        { newComment := "   " } [] (Except.ok ()) = [] ∧
      (handleCommentSubmit "inv1" { newComment := "   " }).2 = { newComment := "   " }) ∧
    ((handleCommentSubmit "inv2" { newComment := " hi " }).1 = some ("inv2", "hi") ∧
      (handleCommentSubmit "inv2" { newComment := " hi " }).2 = { newComment := "" }) :=
  ⟨(c5_emptyCommentNoWrite Unit "inv1" "0" "2024-01-01T00:00:00.000Z"
      { newComment := "   " } [] (Except.ok ())).1 (by decide),
   (c5_emptyCommentNoWrite Unit "inv2" "0" "2024-01-01T00:00:00.000Z"
      { newComment := " hi " } [] (Except.ok ())).2 (by decide)⟩

/-- C6: after a successful step write, confetti is shown exactly when the
written step is 6 (the last of the 7 stages), and exactly then its dismissal is
scheduled after 5000 ms. -/
theorem c6_confettiAtFinalStage (investorId : String) (newStep : Int) :
    (handleUpdateInvestorStep Unit investorId newStep (Except.ok ())).write =
      some (investorId, newStep) ∧
    ((handleUpdateInvestorStep Unit investorId newStep (Except.ok ())).showConfetti = true ↔
      newStep = 6) ∧
    (newStep = 6 →
      (handleUpdateInvestorStep Unit investorId newStep
        (Except.ok ())).confettiTimeoutMs = some 5000) ∧
    (newStep ≠ 6 →
      (handleUpdateInvestorStep Unit investorId newStep
        (Except.ok ())).confettiTimeoutMs = none) := by
  have hlen : (steps.length : Int) - 1 = 6 := by decide
  by_cases h : newStep = 6 <;>
    simp [handleUpdateInvestorStep, hlen, h]

/-- Witness for C6 at step 6: the dismissal is scheduled after exactly 5000 ms. -/
theorem c6_confettiAtFinalStage_witness :
    (handleUpdateInvestorStep Unit "inv1" 6 (Except.ok ())).confettiTimeoutMs =
      some 5000 :=
  (c6_confettiAtFinalStage "inv1" 6).2.2.1 rfl

/-- C7: a confirmed edit issues, first, a single commit carrying the whole
draft record minus its id (nothing else is dropped: the commit payload together
with the id reassembles the draft exactly), and only after it the three AI
refresh calls — portfolio analysis, likelihood prediction, next-action
suggestion — each taking the freshly saved record. -/
theorem c7_editCommitThenRefresh (inv : Investor) (investors : List Investor) :
    (handleEditInvestor Unit inv investors (Except.ok ())).events =
      EditEvent.commitUpdate inv.id (investorData inv) ::
        [EditEvent.aiPortfolio inv, EditEvent.aiLikelihood inv,
         EditEvent.aiNextActions inv inv.currentStep] ∧
    reassemble inv.id (investorData inv) = inv ∧
    ((handleEditInvestor Unit inv investors (Except.ok ())).events.filter isCommitEvent) =
      [EditEvent.commitUpdate inv.id (investorData inv)] := by
  refine ⟨rfl, rfl, ?_⟩
  simp [handleEditInvestor, isCommitEvent]

/-- C9: every record mirrored into local state by the subscription handler has
a `currentStep` of number type: it comes from some delivered document, is the
stored value when that was a number, and is 0 otherwise. -/
theorem c9_mirroredStepIsNumeric (docs : List RawInvestorDoc) (r : MirroredInvestor)
    (hr : r ∈ mirrorSnapshot docs) :
    (∃ n : Int, r.currentStep = JSValue.num n) ∧
    ∃ d ∈ docs, r.id = d.docId ∧
      (isNumber d.currentStep = true → r.currentStep = d.currentStep) ∧
      (isNumber d.currentStep = false → r.currentStep = JSValue.num 0) := by
  rcases List.mem_map.mp (by simpa [mirrorSnapshot] using hr) with ⟨d, hd, hrd⟩
  subst hrd
  constructor
  · rcases hcs : d.currentStep with n | s | b | _ | _ <;>
      simp [isNumber, hcs]
  · exact ⟨d, hd, rfl, fun h => by simp [h], fun h => by simp [h]⟩

/-- Witness for C9: a document whose stored `currentStep` is the string "oops"
is mirrored with `currentStep` 0 (of number type). -/
theorem c9_mirroredStepIsNumeric_witness :
    ({ id := "d1", currentStep := JSValue.num 0 } : MirroredInvestor).currentStep =
      JSValue.num 0 := by
  have h := c9_mirroredStepIsNumeric
    [{ docId := "d1", currentStep := JSValue.str "oops" }]
    { id := "d1", currentStep := JSValue.num 0 } (by decide)
  rcases h.2 with ⟨d, hd, _, _, hnn⟩
  have hdd : d = { docId := "d1", currentStep := JSValue.str "oops" } := by
    simpa using hd
  exact hnn (by simp [hdd, isNumber])

end OneVDR
